import Mathlib

/-!
Verification of the drone-kaniko ECR plugin command (`cmd/kaniko-ecr/main.go`).

The Go program is a straight-line orchestrator: it optionally provisions
AWS ECR credentials (environment variables plus a docker credential-helper
config file), optionally creates an ECR repository, optionally uploads a
lifecycle policy and a repository policy, and finally invokes the external
kaniko build plugin.

The embedding below models each function of the source as a pure Lean
function returning the list of externally visible effects it performs (in
order) together with its `error` result.  Outcomes of external calls that
the program merely consumes (AWS config loading, the create/put/set SDK
calls, the file-system reads, write success) are supplied as explicit
oracle parameters; `os.Setenv` is modelled as always succeeding, which the
claims under study never exercise.  Go strings are modelled as Lean
strings; `strings.HasPrefix` is modelled on the character data, which
agrees with the Go byte-level definition on valid UTF-8 text.
-/

namespace KanikoECR

/-- Constant block of the source (main.go lines 23-30). -/
def accessKeyEnv : String := "AWS_ACCESS_KEY_ID"

def secretKeyEnv : String := "AWS_SECRET_ACCESS_KEY"

def dockerConfigPath : String := "/kaniko/.docker/config.json"

def ecrPublicDomain : String := "public.ecr.aws"

def defaultDigestFile : String := "/kaniko/digest-file"

/-- The value of the external constant `artifact.ECR` used for the
artifact registry-type tag. -/
def artifactECR : String := "ECR"

/-- Model of a Go `error` value as this program builds and consumes them:
`errorf` for `fmt.Errorf`, `wrap` for `errors.Wrap`, `api` for an SDK
error implementing `smithy.APIError` with the given code, `other` for any
error that does not classify as an API error, `fatal`/`fatalf` for
`logrus.Fatal` terminations. -/
inductive GoErr
  | errorf (msg : String)
  | wrap (msg : String) (inner : GoErr)
  | api (code : String)
  | other (msg : String)
  | fatal (inner : GoErr)
  | fatalf (msg : String) (inner : GoErr)
deriving Repr, DecidableEq

/-- Outcome of one AWS SDK call, as the program distinguishes them:
success, an error that satisfies `errors.As(err, &smithy.APIError)` with
the given code, or any other (non-API) error. -/
inductive AwsResult
  | ok
  | apiError (code : String)
  | otherError (msg : String)
deriving Repr, DecidableEq

/-- Result of an SDK call as an error returned verbatim (as `uploadLifeCyclePolicy` and
`uploadRepositoryPolicy` do with `return err`). -/
def awsErr : AwsResult → Except GoErr Unit
  | .ok => .ok ()
  | .apiError code => .error (.api code)
  | .otherError m => .error (.other m)

/-- The kaniko.Build structure assembled by `run` (main.go lines 209-224). -/
structure Build where
  Dockerfile : String
  Context : String
  Tags : List String
  Args : List String
  Target : String
  Repo : String
  Labels : List String
  SnapshotMode : String
  EnableCache : Bool
  CacheRepo : String
  CacheTTL : Int
  DigestFile : String
  NoPush : Bool
  Verbosity : String
deriving Repr, DecidableEq

/-- The kaniko.Artifact structure assembled by `run` (main.go lines 225-231). -/
structure Artifact where
  Tags : List String
  Repo : String
  Registry : String
  ArtifactFile : String
  RegistryType : String
deriving Repr, DecidableEq

/-- The kaniko.Plugin structure handed to the external builder. -/
structure Plugin where
  build : Build
  artifact : Artifact
deriving Repr, DecidableEq

/-- Externally visible effects the program performs, in program order.
`putLifecyclePolicyPublic` is the public-registry lifecycle call offered
by the SDK surface; the source never issues it, and the constructor exists
so that its absence is expressible. -/
inductive Effect
  | setenv (name v : String)
  | writeFile (path content : String)
  | createRepoPublic (repo : String)
  | createRepoPrivate (repo : String)
  | putLifecyclePolicyPrivate (repo text : String)
  | putLifecyclePolicyPublic (repo text : String)
  | setRepoPolicyPublic (repo text : String)
  | setRepoPolicyPrivate (repo text : String)
  | execPlugin (p : Plugin)
deriving Repr, DecidableEq

/-- Classifier `isRegistryPublic` (main.go lines 342-344): `strings.HasPrefix(registry,
ecrPublicDomain)`, modelled on the character data. -/
def isRegistryPublic (registry : String) : Bool :=
  ecrPublicDomain.data.isPrefixOf registry.data

/-- The credential-helper JSON built by `setupECRAuth` (main.go line 254):
the `fmt.Sprintf` format string with the public domain and the registry
spliced in. -/
def dockerConfigJSON (registry : String) : String :=
  "\x7b\"credStore\": \"ecr-login\", \"credHelpers\": \x7b\"" ++ ecrPublicDomain
    ++ "\": \"ecr-login\", \"" ++ registry ++ "\": \"ecr-login\"\x7d\x7d"

/-- A structured reading of the credential descriptor: a credStore name and
an association list of credential-helper entries (host, helper program). -/
structure DockerConfig where
  credStore : String
  credHelpers : List (String × String)
deriving Repr, DecidableEq

/-- Render the credHelpers entries as the JSON object body. -/
def renderHelpers : List (String × String) → String
  | [] => ""
  | [(h, v)] => "\"" ++ h ++ "\": \"" ++ v ++ "\""
  | (h, v) :: rest => "\"" ++ h ++ "\": \"" ++ v ++ "\", " ++ renderHelpers rest

/-- Render a structured descriptor as JSON text. -/
def renderDockerConfig (c : DockerConfig) : String :=
  "\x7b\"credStore\": \"" ++ c.credStore ++ "\", \"credHelpers\": \x7b"
    ++ renderHelpers c.credHelpers ++ "\x7d\x7d"

/-- Function `setupECRAuth` (main.go lines 236-260).  Checks the registry, exports
the two credential environment variables when both keys are non-empty,
then writes the credential descriptor to the fixed path; `writeOk` is the
oracle for `ioutil.WriteFile` succeeding. -/
def setupECRAuth (accessKey secretKey registry : String) (writeOk : Bool) :
    List Effect × Except GoErr Unit :=
  if registry = "" then
    ([], .error (.errorf "registry must be specified"))
  else if writeOk then
    ((if accessKey != "" && secretKey != "" then
        [Effect.setenv accessKeyEnv accessKey, Effect.setenv secretKeyEnv secretKey]
      else [])
      ++ [Effect.writeFile dockerConfigPath (dockerConfigJSON registry)], .ok ())
  else
    ((if accessKey != "" && secretKey != "" then
        [Effect.setenv accessKeyEnv accessKey, Effect.setenv secretKeyEnv secretKey]
      else []),
      .error (.wrap "failed to create docker config file" (.other "write error")))

/-- Function `createRepository` (main.go lines 262-295).  `cfgOk` is the oracle for
`config.LoadDefaultConfig`, `result` for the SDK CreateRepository call on
whichever surface the classifier selects.  The error classification
mirrors `errors.As(createErr, &apiError) && apiError.ErrorCode() !=
"RepositoryAlreadyExistsException"` exactly: only an API error with a
different code is returned. -/
def createRepository (region repo registry : String) (cfgOk : Bool)
    (result : AwsResult) : List Effect × Except GoErr Unit :=
  if registry = "" then
    ([], .error (.errorf "registry must be specified"))
  else if repo = "" then
    ([], .error (.errorf "repo must be specified"))
  else if !cfgOk then
    ([], .error (.wrap "failed to load aws config" (.other "load config")))
  else
    ([if isRegistryPublic registry then Effect.createRepoPublic repo
      else Effect.createRepoPrivate repo],
      match result with
      | .apiError code =>
          if code != "RepositoryAlreadyExistsException" then
            .error (.wrap "failed to create repository" (.api code))
          else .ok ()
      | _ => .ok ())

/-- Function `uploadLifeCyclePolicy` (main.go lines 297-312): loads AWS config, then
issues `PutLifecyclePolicy` on the private `ecr` client unconditionally,
returning the resulting error verbatim. -/
def uploadLifeCyclePolicy (region repo lifecyclePolicy : String)
    (cfgOk : Bool) (result : AwsResult) : List Effect × Except GoErr Unit :=
  if !cfgOk then
    ([], .error (.wrap "failed to load aws config" (.other "load config")))
  else
    ([Effect.putLifecyclePolicyPrivate repo lifecyclePolicy], awsErr result)

/-- Function `uploadRepositoryPolicy` (main.go lines 314-340): loads AWS config,
then issues `SetRepositoryPolicy` on the public or private client as the
classifier decides, returning the resulting error verbatim. -/
def uploadRepositoryPolicy (region repo registry repositoryPolicy : String)
    (cfgOk : Bool) (result : AwsResult) : List Effect × Except GoErr Unit :=
  if !cfgOk then
    ([], .error (.wrap "failed to load aws config" (.other "load config")))
  else if isRegistryPublic registry then
    ([Effect.setRepoPolicyPublic repo repositoryPolicy], awsErr result)
  else
    ([Effect.setRepoPolicyPrivate repo repositoryPolicy], awsErr result)

/-- The parsed CLI configuration consumed by `run`.  The two policy fields
are `none` when the corresponding flag is unset (`c.IsSet`), otherwise the
file path. -/
structure Config where
  dockerfile : String
  context : String
  tags : List String
  args : List String
  target : String
  repo : String
  createRepository : Bool
  region : String
  customLabels : List String
  registry : String
  accessKey : String
  secretKey : String
  snapshotMode : String
  lifecyclePolicy : Option String
  repositoryPolicy : Option String
  enableCache : Bool
  cacheRepo : String
  cacheTTL : Int
  artifactFile : String
  noPush : Bool
  verbosity : String
deriving Repr, DecidableEq

/-- Outcomes of the external calls `run` can make, supplied as oracles. -/
structure Oracles where
  writeOk : Bool
  createCfgOk : Bool
  createResult : AwsResult
  lifecycleCfgOk : Bool
  lifecycleResult : AwsResult
  repoPolicyCfgOk : Bool
  repoPolicyResult : AwsResult
  pluginResult : Option GoErr
deriving Repr, DecidableEq

/-- The plugin structure assembled at main.go lines 208-232, with both
fully-qualified repositories built by `fmt.Sprintf("%s/%s", registry, _)`. -/
def mkPlugin (c : Config) : Plugin :=
  { build :=
      { Dockerfile := c.dockerfile
        Context := c.context
        Tags := c.tags
        Args := c.args
        Target := c.target
        Repo := c.registry ++ "/" ++ c.repo
        Labels := c.customLabels
        SnapshotMode := c.snapshotMode
        EnableCache := c.enableCache
        CacheRepo := c.registry ++ "/" ++ c.cacheRepo
        CacheTTL := c.cacheTTL
        DigestFile := defaultDigestFile
        NoPush := c.noPush
        Verbosity := c.verbosity }
    artifact :=
      { Tags := c.tags
        Repo := c.repo
        Registry := c.registry
        ArtifactFile := c.artifactFile
        RegistryType := artifactECR } }

/-- Sequencing of two steps: a failing first step aborts with its trace and
error; otherwise the traces concatenate and the second result stands. -/
def step (s₁ s₂ : List Effect × Except GoErr Unit) :
    List Effect × Except GoErr Unit :=
  match s₁ with
  | (tr, .error e) => (tr, .error e)
  | (tr, .ok _) => (tr ++ s₂.1, s₂.2)

/-- The guard of the credential-provisioning step, verbatim from main.go
line 175: `!noPush || accessKey != ""`. -/
def authGuard (c : Config) : Bool :=
  !c.noPush || c.accessKey != ""

/-- Step 1 of `run` (main.go lines 174-179). -/
def authStep (c : Config) (o : Oracles) : List Effect × Except GoErr Unit :=
  if authGuard c then setupECRAuth c.accessKey c.secretKey c.registry o.writeOk
  else ([], .ok ())

/-- Step 2 of `run` (main.go lines 181-186), guarded by
`!noPush && c.Bool("create-repository")`. -/
def createStep (c : Config) (o : Oracles) : List Effect × Except GoErr Unit :=
  if !c.noPush && c.createRepository then
    createRepository c.region c.repo c.registry o.createCfgOk o.createResult
  else ([], .ok ())

/-- Step 3 of `run` (main.go lines 188-196): read the lifecycle-policy file
when the flag is set (a read failure is `logrus.Fatal`), upload its
contents, turning an upload error into a `logrus.Fatal`. -/
def lifecycleStep (c : Config) (fs : String → Option String) (o : Oracles) :
    List Effect × Except GoErr Unit :=
  match c.lifecyclePolicy with
  | none => ([], .ok ())
  | some path =>
    match fs path with
    | none => ([], .error (.fatal (.other ("read " ++ path))))
    | some contents =>
      match uploadLifeCyclePolicy c.region c.repo contents
          o.lifecycleCfgOk o.lifecycleResult with
      | (tr, .ok _) => (tr, .ok ())
      | (tr, .error e) =>
          (tr, .error (.fatalf "error uploading ECR lifecycle policy" e))

/-- Step 4 of `run` (main.go lines 198-206): the same shape for the
repository policy (the source reuses the lifecycle wording in its fatal
message, which the model keeps). -/
def repoPolicyStep (c : Config) (fs : String → Option String) (o : Oracles) :
    List Effect × Except GoErr Unit :=
  match c.repositoryPolicy with
  | none => ([], .ok ())
  | some path =>
    match fs path with
    | none => ([], .error (.fatal (.other ("read " ++ path))))
    | some contents =>
      match uploadRepositoryPolicy c.region c.repo c.registry contents
          o.repoPolicyCfgOk o.repoPolicyResult with
      | (tr, .ok _) => (tr, .ok ())
      | (tr, .error e) =>
          (tr, .error (.fatalf "error uploading ECR lifecycle policy" e))

/-- Step 5 of `run` (main.go lines 208-233): assemble the plugin structure
and invoke the external builder, returning its error verbatim. -/
def execStep (c : Config) (o : Oracles) : List Effect × Except GoErr Unit :=
  ([Effect.execPlugin (mkPlugin c)],
    match o.pluginResult with
    | none => .ok ()
    | some e => .error e)

/-- Function `run` (main.go lines 167-234): the five steps in program order, each
aborting the rest on failure. -/
def run (c : Config) (fs : String → Option String) (o : Oracles) :
    List Effect × Except GoErr Unit :=
  step (authStep c o)
    (step (createStep c o)
      (step (lifecycleStep c fs o)
        (step (repoPolicyStep c fs o) (execStep c o))))

/-- File-system update performed by one effect: a `writeFile` replaces the
content at its path wholesale, every other effect leaves files unchanged. -/
def applyEffect (files : String → Option String) : Effect → (String → Option String)
  | .writeFile path content => fun p => if p = path then some content else files p
  | _ => files

/-- File-system state after a trace of effects. -/
def applyEffects (files : String → Option String) :
    List Effect → (String → Option String)
  | [] => files
  | e :: es => applyEffects (applyEffect files e) es

/-- A sample parsed configuration: flag defaults of the CLI declaration
with a private registry and a repository name supplied. -/
def cfg0 : Config :=
  { dockerfile := "Dockerfile"
    context := "."
    tags := ["latest"]
    args := []
    target := ""
    repo := "app"
    createRepository := false
    region := "us-east-1"
    customLabels := []
    registry := "123.dkr.ecr.us-east-1.amazonaws.com"
    accessKey := ""
    secretKey := ""
    snapshotMode := ""
    lifecyclePolicy := none
    repositoryPolicy := none
    enableCache := false
    cacheRepo := "cache"
    cacheTTL := 0
    artifactFile := ""
    noPush := false
    verbosity := "info" }

/-- Oracles where every external call succeeds. -/
def oracles0 : Oracles :=
  { writeOk := true
    createCfgOk := true
    createResult := .ok
    lifecycleCfgOk := true
    lifecycleResult := .ok
    repoPolicyCfgOk := true
    repoPolicyResult := .ok
    pluginResult := none }

/-- A sample file system holding one policy file. -/
def sampleFS : String → Option String :=
  fun p => if p = "/policy.json" then some "POLICY-TEXT" else none

/-- A build-only configuration on a public registry with a lifecycle
policy. -/
def cfgLC : Config := { cfg0 with registry := "public.ecr.aws/foo", noPush := true, lifecyclePolicy := some "/policy.json" }

/-- A build-only configuration with a lifecycle policy on a private
registry. -/
def cfgPol : Config := { cfg0 with noPush := true, lifecyclePolicy := some "/policy.json" }

/-! ### General lemmas about step sequencing -/

theorem step_fst_cases (s₁ s₂ : List Effect × Except GoErr Unit) :
    (step s₁ s₂).1 = s₁.1 ∨ (step s₁ s₂).1 = s₁.1 ++ s₂.1 := by
  rcases s₁ with ⟨tr, r⟩
  cases r <;> simp [step]

theorem step_fst_prefixed (s₁ s₂ : List Effect × Except GoErr Unit) :
    ∃ rest, (step s₁ s₂).1 = s₁.1 ++ rest := by
  rcases step_fst_cases s₁ s₂ with h | h
  · exact ⟨[], by simp [h]⟩
  · exact ⟨s₂.1, h⟩

theorem mem_step {e : Effect} {s₁ s₂ : List Effect × Except GoErr Unit}
    (he : e ∈ (step s₁ s₂).1) : e ∈ s₁.1 ∨ e ∈ s₂.1 := by
  rcases step_fst_cases s₁ s₂ with h | h
  · rw [h] at he; exact Or.inl he
  · rw [h] at he; exact List.mem_append.1 he

theorem step_ok (s₁ s₂ : List Effect × Except GoErr Unit) (h : s₁.2 = .ok ()) :
    step s₁ s₂ = (s₁.1 ++ s₂.1, s₂.2) := by
  rcases s₁ with ⟨tr, r⟩
  cases r <;> simp_all [step]

theorem step_skip (s : List Effect × Except GoErr Unit) : step ([], .ok ()) s = s := by
  rcases s with ⟨tr, r⟩
  simp [step]

theorem mem_run {c : Config} {fs : String → Option String} {o : Oracles}
    {e : Effect} (he : e ∈ (run c fs o).1) :
    e ∈ (authStep c o).1 ∨ e ∈ (createStep c o).1 ∨ e ∈ (lifecycleStep c fs o).1
      ∨ e ∈ (repoPolicyStep c fs o).1 ∨ e ∈ (execStep c o).1 := by
  rcases mem_step he with h | h
  · exact Or.inl h
  rcases mem_step h with h | h
  · exact Or.inr (Or.inl h)
  rcases mem_step h with h | h
  · exact Or.inr (Or.inr (Or.inl h))
  rcases mem_step h with h | h
  · exact Or.inr (Or.inr (Or.inr (Or.inl h)))
  · exact Or.inr (Or.inr (Or.inr (Or.inr h)))

/-! ### Shape of the trace of each step -/

theorem authStep_shape {c : Config} {o : Oracles} {e : Effect}
    (he : e ∈ (authStep c o).1) :
    authGuard c = true ∧ c.registry ≠ "" ∧
      (e = .setenv accessKeyEnv c.accessKey ∨ e = .setenv secretKeyEnv c.secretKey ∨
        e = .writeFile dockerConfigPath (dockerConfigJSON c.registry)) := by
  unfold authStep setupECRAuth at he
  split at he
  case isFalse => simp at he
  case isTrue hg =>
    refine ⟨hg, ?_⟩
    split_ifs at he with hreg hw hk hk
    all_goals simp at he
    all_goals exact ⟨hreg, by tauto⟩

theorem createStep_shape {c : Config} {o : Oracles} {e : Effect}
    (he : e ∈ (createStep c o).1) :
    c.noPush = false ∧ c.createRepository = true ∧ c.registry ≠ "" ∧ c.repo ≠ "" ∧
      ((isRegistryPublic c.registry = true ∧ e = .createRepoPublic c.repo) ∨
        (isRegistryPublic c.registry = false ∧ e = .createRepoPrivate c.repo)) := by
  unfold createStep createRepository at he
  split at he
  case isFalse => simp at he
  case isTrue hg =>
    have hnp : c.noPush = false := by
      cases hnpv : c.noPush <;> simp [hnpv] at hg ⊢
    have hcr : c.createRepository = true := by
      cases hcv : c.createRepository <;> simp [hcv] at hg ⊢
    refine ⟨hnp, hcr, ?_⟩
    split_ifs at he with hreg hrepo hcfg hpub
    · simp at he
    · simp at he
    · simp at he
    · simp at he
      exact ⟨hreg, hrepo, Or.inl ⟨hpub, he⟩⟩
    · simp at he
      exact ⟨hreg, hrepo, Or.inr ⟨by simpa using hpub, he⟩⟩

theorem lifecycleStep_shape {c : Config} {fs : String → Option String}
    {o : Oracles} {e : Effect} (he : e ∈ (lifecycleStep c fs o).1) :
    ∃ path T, c.lifecyclePolicy = some path ∧ fs path = some T ∧
      e = .putLifecyclePolicyPrivate c.repo T := by
  unfold lifecycleStep at he
  split at he
  · simp at he
  next path hpath =>
    split at he
    · simp at he
    next contents hread =>
      refine ⟨path, contents, hpath, hread, ?_⟩
      cases hcfg : o.lifecycleCfgOk <;> cases hres : o.lifecycleResult <;>
        simp [uploadLifeCyclePolicy, awsErr, hcfg, hres] at he <;> exact he

theorem repoPolicyStep_shape {c : Config} {fs : String → Option String}
    {o : Oracles} {e : Effect} (he : e ∈ (repoPolicyStep c fs o).1) :
    ∃ path T, c.repositoryPolicy = some path ∧ fs path = some T ∧
      ((isRegistryPublic c.registry = true ∧ e = .setRepoPolicyPublic c.repo T) ∨
        (isRegistryPublic c.registry = false ∧ e = .setRepoPolicyPrivate c.repo T)) := by
  unfold repoPolicyStep at he
  split at he
  · simp at he
  next path hpath =>
    split at he
    · simp at he
    next contents hread =>
      refine ⟨path, contents, hpath, hread, ?_⟩
      by_cases hp : isRegistryPublic c.registry
      · refine Or.inl ⟨hp, ?_⟩
        cases hcfg : o.repoPolicyCfgOk <;> cases hres : o.repoPolicyResult <;>
          simp [uploadRepositoryPolicy, awsErr, hcfg, hres, hp] at he <;> exact he
      · refine Or.inr ⟨by simpa using hp, ?_⟩
        cases hcfg : o.repoPolicyCfgOk <;> cases hres : o.repoPolicyResult <;>
          simp [uploadRepositoryPolicy, awsErr, hcfg, hres, hp] at he <;> exact he

theorem execStep_shape {c : Config} {o : Oracles} {e : Effect}
    (he : e ∈ (execStep c o).1) : e = .execPlugin (mkPlugin c) := by
  simpa [execStep] using he

/-! ### Claims -/

/-- Claim C1, counterexample: the error classification of the source
(`errors.As(createErr, &apiError) && apiError.ErrorCode() != "Repository
AlreadyExistsException"`) swallows every create-call error that does not
classify as a smithy API error.  At this concrete input the create call
fails with a non-API error (a connection reset), yet `createRepository`
returns success, so "any other error from the create-repository call
causes createRepository to return a fatal error" is false. -/
theorem createRepository_swallows_non_api_error :
    createRepository "us-east-1" "app" "123.dkr.ecr.us-east-1.amazonaws.com"
        true (.otherError "connection reset") =
      ([Effect.createRepoPrivate "app"], .ok ()) := rfl

/-- Claim C1, amended: an API error with code
"RepositoryAlreadyExistsException" is treated as success, and any other
cloud-API error (a create-call error classifying as a smithy API error
with a different code) causes `createRepository` to return a fatal error;
errors that do not classify as API errors are swallowed as success. -/
theorem createRepository_api_error_classification
    (region repo registry code : String) (hreg : registry ≠ "") (hrepo : repo ≠ "") :
    (createRepository region repo registry true
        (.apiError "RepositoryAlreadyExistsException")).2 = .ok ()
    ∧ (code ≠ "RepositoryAlreadyExistsException" →
        (createRepository region repo registry true (.apiError code)).2 =
          .error (.wrap "failed to create repository" (.api code)))
    ∧ ∀ msg, (createRepository region repo registry true (.otherError msg)).2 = .ok () := by
  refine ⟨?_, ?_, ?_⟩
  · simp [createRepository, hreg, hrepo]
  · intro hc
    simp [createRepository, hreg, hrepo, hc]
  · intro msg
    simp [createRepository, hreg, hrepo]

theorem createRepository_api_error_classification_witness :
    (createRepository "us-east-1" "app" "reg.example.com" true
        (.apiError "RepositoryAlreadyExistsException")).2 = .ok ()
    ∧ (createRepository "us-east-1" "app" "reg.example.com" true
        (.apiError "AccessDeniedException")).2 =
      .error (.wrap "failed to create repository" (.api "AccessDeniedException")) :=
  ⟨(createRepository_api_error_classification "us-east-1" "app" "reg.example.com"
      "AccessDeniedException" (by decide) (by decide)).1,
    (createRepository_api_error_classification "us-east-1" "app" "reg.example.com"
      "AccessDeniedException" (by decide) (by decide)).2.1 (by decide)⟩

/-- Claim C3: `isRegistryPublic` returns true iff the registry string
starts with the fixed public-domain literal "public.ecr.aws" (that is,
iff the string is that literal followed by some suffix), and the exact
domain string alone classifies as public.  The function is a total Lean
function, matching the pure, total Go predicate. -/
theorem isRegistryPublic_characterization :
    (∀ r : String, isRegistryPublic r = true ↔ ∃ t, r = ecrPublicDomain ++ t)
    ∧ isRegistryPublic ecrPublicDomain = true
    ∧ ecrPublicDomain = "public.ecr.aws" := by
  refine ⟨?_, by decide, rfl⟩
  intro r
  unfold isRegistryPublic
  rw [ List.isPrefixOf_iff_prefix]
  constructor
  · rintro ⟨t, ht⟩
    exact ⟨⟨t⟩, by apply String.ext; simpa using ht.symm⟩
  · rintro ⟨t, rfl⟩
    exact ⟨t.data, by simp⟩

theorem isRegistryPublic_characterization_witness :
    isRegistryPublic "public.ecr.aws/myrepo" = true
    ∧ isRegistryPublic "public.ecr.aws" = true :=
  ⟨(isRegistryPublic_characterization.1 "public.ecr.aws/myrepo").2 ⟨"/myrepo", rfl⟩,
    isRegistryPublic_characterization.2.1⟩

/-- Claim C4: called with an empty registry host, `setupECRAuth` returns
the configuration error and its trace is empty: no environment variable
is set and no file write occurs, for any keys and any write oracle. -/
theorem setupECRAuth_empty_registry (accessKey secretKey : String) (writeOk : Bool) :
    setupECRAuth accessKey secretKey "" writeOk =
      ([], .error (.errorf "registry must be specified")) := by
  simp [setupECRAuth]

/-- Claim C5: for a non-empty registry host, `setupECRAuth` (with the
write succeeding) succeeds, its last effect writes the credential
descriptor to the fixed path `/kaniko/.docker/config.json`, the descriptor
is the rendering of a structured config whose credential-helper entries
are exactly the public domain and the supplied host (both mapped to the
`ecr-login` helper), and applying the trace to any prior file system
leaves exactly that content at the fixed path (full overwrite). -/
theorem setupECRAuth_writes_descriptor (accessKey secretKey registry : String)
    (h : registry ≠ "") :
    (setupECRAuth accessKey secretKey registry true).2 = .ok ()
    ∧ (∃ pre, (setupECRAuth accessKey secretKey registry true).1 =
        pre ++ [Effect.writeFile dockerConfigPath (dockerConfigJSON registry)])
    ∧ dockerConfigPath = "/kaniko/.docker/config.json"
    ∧ dockerConfigJSON registry =
        renderDockerConfig ⟨"ecr-login",
          [(ecrPublicDomain, "ecr-login"), (registry, "ecr-login")]⟩
    ∧ ∀ files : String → Option String,
        applyEffects files (setupECRAuth accessKey secretKey registry true).1
          dockerConfigPath = some (dockerConfigJSON registry) := by
  have hjson : dockerConfigJSON registry =
      renderDockerConfig ⟨"ecr-login",
        [(ecrPublicDomain, "ecr-login"), (registry, "ecr-login")]⟩ := by
    apply String.ext
    simp [dockerConfigJSON, renderDockerConfig, renderHelpers]
  by_cases hk : (accessKey != "" && secretKey != "") = true
  · refine ⟨by simp [setupECRAuth, h, hk],
      ⟨[Effect.setenv accessKeyEnv accessKey, Effect.setenv secretKeyEnv secretKey],
        by simp [setupECRAuth, h, hk]⟩, rfl, hjson, ?_⟩
    intro files
    simp [setupECRAuth, h, hk, applyEffects, applyEffect]
  · refine ⟨by simp [setupECRAuth, h, hk], ⟨[], by simp [setupECRAuth, h, hk]⟩, rfl, hjson, ?_⟩
    intro files
    simp [setupECRAuth, h, hk, applyEffects, applyEffect]

theorem setupECRAuth_writes_descriptor_witness :
    (setupECRAuth "" "" "example.com" true).2 = .ok ()
    ∧ applyEffects (fun _ => some "OLD-CONTENT")
        (setupECRAuth "" "" "example.com" true).1 dockerConfigPath =
      some (dockerConfigJSON "example.com") :=
  ⟨(setupECRAuth_writes_descriptor "" "" "example.com" (by decide)).1,
    (setupECRAuth_writes_descriptor "" "" "example.com" (by decide)).2.2.2.2
      (fun _ => some "OLD-CONTENT")⟩

/-- Claim C10: with a non-empty registry host and exactly one of the two
keys non-empty, `setupECRAuth` sets no environment variable, still writes
the credential descriptor, and succeeds: the whole behaviour is exactly
the single descriptor write. -/
theorem setupECRAuth_single_key_no_env (accessKey secretKey registry : String)
    (hreg : registry ≠ "")
    (hkeys : (accessKey ≠ "" ∧ secretKey = "") ∨ (accessKey = "" ∧ secretKey ≠ "")) :
    setupECRAuth accessKey secretKey registry true =
      ([Effect.writeFile dockerConfigPath (dockerConfigJSON registry)], .ok ()) := by
  rcases hkeys with ⟨h1, h2⟩ | ⟨h1, h2⟩ <;> simp [setupECRAuth, hreg, h1, h2]

theorem setupECRAuth_single_key_no_env_witness :
    setupECRAuth "AKIAEXAMPLE" "" "example.com" true =
      ([Effect.writeFile dockerConfigPath (dockerConfigJSON "example.com")], .ok ()) :=
  setupECRAuth_single_key_no_env "AKIAEXAMPLE" "" "example.com" (by decide)
    (Or.inl ⟨by decide, rfl⟩)

/-- Claim C2: the credential-provisioning step is skipped exactly when
push is suppressed and the access key is empty: the guard in the source
`!noPush || accessKey != ""` is false iff `noPush = true` and the access
key is empty; when it is false, the whole run performs no setenv and no
file write; when it is true, the trace of the run starts with exactly the
trace of `setupECRAuth`. -/
theorem run_auth_skip_iff (c : Config) (fs : String → Option String) (o : Oracles) :
    (authGuard c = false ↔ c.noPush = true ∧ c.accessKey = "")
    ∧ (authGuard c = false →
        (∀ n v, Effect.setenv n v ∉ (run c fs o).1)
        ∧ ∀ p t, Effect.writeFile p t ∉ (run c fs o).1)
    ∧ (authGuard c = true → ∃ rest,
        (run c fs o).1 =
          (setupECRAuth c.accessKey c.secretKey c.registry o.writeOk).1 ++ rest) := by
  refine ⟨?_, ?_, ?_⟩
  · unfold authGuard
    cases hnp : c.noPush <;> simp [hnp]
  · intro hg
    constructor
    · intro n v hmem
      rcases mem_run hmem with h | h | h | h | h
      · simp [authStep, hg] at h
      · rcases createStep_shape h with ⟨_, _, _, _, h5⟩
        rcases h5 with ⟨_, he⟩ | ⟨_, he⟩ <;> simp at he
      · rcases lifecycleStep_shape h with ⟨_, _, _, _, he⟩
        simp at he
      · rcases repoPolicyStep_shape h with ⟨_, _, _, _, h5⟩
        rcases h5 with ⟨_, he⟩ | ⟨_, he⟩ <;> simp at he
      · have he := execStep_shape h
        simp at he
    · intro p t hmem
      rcases mem_run hmem with h | h | h | h | h
      · simp [authStep, hg] at h
      · rcases createStep_shape h with ⟨_, _, _, _, h5⟩
        rcases h5 with ⟨_, he⟩ | ⟨_, he⟩ <;> simp at he
      · rcases lifecycleStep_shape h with ⟨_, _, _, _, he⟩
        simp at he
      · rcases repoPolicyStep_shape h with ⟨_, _, _, _, h5⟩
        rcases h5 with ⟨_, he⟩ | ⟨_, he⟩ <;> simp at he
      · have he := execStep_shape h
        simp at he
  · intro hg
    obtain ⟨rest, hr⟩ := step_fst_prefixed (authStep c o)
      (step (createStep c o)
        (step (lifecycleStep c fs o) (step (repoPolicyStep c fs o) (execStep c o))))
    refine ⟨rest, ?_⟩
    have ha : authStep c o = setupECRAuth c.accessKey c.secretKey c.registry o.writeOk := by
      simp [authStep, hg]
    unfold run
    rw [hr, ha]

theorem run_auth_skip_iff_witness :
    (authGuard { cfg0 with noPush := true } = false)
    ∧ Effect.setenv accessKeyEnv "AKIAEXAMPLE"
        ∉ (run { cfg0 with noPush := true } (fun _ => none) oracles0).1
    ∧ Effect.writeFile dockerConfigPath (dockerConfigJSON cfg0.registry)
        ∉ (run { cfg0 with noPush := true } (fun _ => none) oracles0).1
    ∧ ∃ rest, (run cfg0 (fun _ => none) oracles0).1 =
        (setupECRAuth cfg0.accessKey cfg0.secretKey cfg0.registry oracles0.writeOk).1
          ++ rest :=
  ⟨rfl,
    ((run_auth_skip_iff { cfg0 with noPush := true } (fun _ => none) oracles0).2.1 rfl).1
      accessKeyEnv "AKIAEXAMPLE",
    ((run_auth_skip_iff { cfg0 with noPush := true } (fun _ => none) oracles0).2.1 rfl).2
      dockerConfigPath (dockerConfigJSON cfg0.registry),
    (run_auth_skip_iff cfg0 (fun _ => none) oracles0).2.2 rfl⟩

/-- Claim C6: the run never issues a public-registry lifecycle-policy
call, for every configuration (in particular when the registry is
classified public); and when the lifecycle-policy flag is set, the file
readable and the config load of the reached step succeeding, the lifecycle
policy is uploaded through the private-registry call. -/
theorem run_lifecycle_private_only (c : Config) (fs : String → Option String)
    (o : Oracles) :
    (∀ r t, Effect.putLifecyclePolicyPublic r t ∉ (run c fs o).1)
    ∧ (∀ path T, c.noPush = true → c.accessKey = "" → c.lifecyclePolicy = some path →
        fs path = some T → o.lifecycleCfgOk = true →
        Effect.putLifecyclePolicyPrivate c.repo T ∈ (run c fs o).1) := by
  constructor
  · intro r t hmem
    rcases mem_run hmem with h | h | h | h | h
    · rcases authStep_shape h with ⟨_, _, h3⟩
      rcases h3 with he | he | he <;> simp at he
    · rcases createStep_shape h with ⟨_, _, _, _, h5⟩
      rcases h5 with ⟨_, he⟩ | ⟨_, he⟩ <;> simp at he
    · rcases lifecycleStep_shape h with ⟨_, _, _, _, he⟩
      simp at he
    · rcases repoPolicyStep_shape h with ⟨_, _, _, _, h5⟩
      rcases h5 with ⟨_, he⟩ | ⟨_, he⟩ <;> simp at he
    · have he := execStep_shape h
      simp at he
  · intro path T hnp hak hpath hT hcfg
    have h1 : authStep c o = ([], .ok ()) := by
      simp [authStep, authGuard, hnp, hak]
    have h2 : createStep c o = ([], .ok ()) := by
      simp [createStep, hnp]
    have hlc : (lifecycleStep c fs o).1 =
        [Effect.putLifecyclePolicyPrivate c.repo T] := by
      cases hres : o.lifecycleResult <;>
        simp [lifecycleStep, hpath, hT, uploadLifeCyclePolicy, awsErr, hcfg, hres]
    obtain ⟨rest, hr⟩ := step_fst_prefixed (lifecycleStep c fs o)
      (step (repoPolicyStep c fs o) (execStep c o))
    unfold run
    rw [h1, step_skip, h2, step_skip, hr, hlc]
    simp

theorem run_lifecycle_private_only_witness :
    isRegistryPublic cfgLC.registry = true
    ∧ Effect.putLifecyclePolicyPrivate "app" "POLICY-TEXT"
        ∈ (run cfgLC sampleFS oracles0).1
    ∧ Effect.putLifecyclePolicyPublic "app" "POLICY-TEXT"
        ∉ (run cfgLC sampleFS oracles0).1 :=
  ⟨by decide,
    (run_lifecycle_private_only cfgLC sampleFS oracles0).2
      "/policy.json" "POLICY-TEXT" rfl rfl rfl (by decide) rfl,
    (run_lifecycle_private_only cfgLC sampleFS oracles0).1
      "app" "POLICY-TEXT"⟩

/-- Claim C7: a create-repository call appears in the trace of a run only when
push is not suppressed and repository creation was requested, and the
surface it is issued on (public or private) agrees with the classifier
verdict on the registry host; conversely, under those guards (with the
registry and repo non-empty and the write and config-load oracles
succeeding) exactly the call selected by the classifier is issued. -/
theorem run_create_repo_guarded (c : Config) (fs : String → Option String)
    (o : Oracles) :
    (∀ r, Effect.createRepoPublic r ∈ (run c fs o).1 →
        c.noPush = false ∧ c.createRepository = true
          ∧ isRegistryPublic c.registry = true)
    ∧ (∀ r, Effect.createRepoPrivate r ∈ (run c fs o).1 →
        c.noPush = false ∧ c.createRepository = true
          ∧ isRegistryPublic c.registry = false)
    ∧ (c.noPush = false → c.createRepository = true → c.registry ≠ "" →
        c.repo ≠ "" → o.writeOk = true → o.createCfgOk = true →
        ((isRegistryPublic c.registry = true
            ∧ Effect.createRepoPublic c.repo ∈ (run c fs o).1)
          ∨ (isRegistryPublic c.registry = false
            ∧ Effect.createRepoPrivate c.repo ∈ (run c fs o).1))) := by
  refine ⟨?_, ?_, ?_⟩
  · intro r hmem
    rcases mem_run hmem with h | h | h | h | h
    · rcases authStep_shape h with ⟨_, _, h3⟩
      rcases h3 with he | he | he <;> simp at he
    · rcases createStep_shape h with ⟨hnp, hcr, _, _, h5⟩
      rcases h5 with ⟨hp, he⟩ | ⟨hp, he⟩
      · exact ⟨hnp, hcr, hp⟩
      · simp at he
    · rcases lifecycleStep_shape h with ⟨_, _, _, _, he⟩
      simp at he
    · rcases repoPolicyStep_shape h with ⟨_, _, _, _, h5⟩
      rcases h5 with ⟨_, he⟩ | ⟨_, he⟩ <;> simp at he
    · have he := execStep_shape h
      simp at he
  · intro r hmem
    rcases mem_run hmem with h | h | h | h | h
    · rcases authStep_shape h with ⟨_, _, h3⟩
      rcases h3 with he | he | he <;> simp at he
    · rcases createStep_shape h with ⟨hnp, hcr, _, _, h5⟩
      rcases h5 with ⟨hp, he⟩ | ⟨hp, he⟩
      · simp at he
      · exact ⟨hnp, hcr, hp⟩
    · rcases lifecycleStep_shape h with ⟨_, _, _, _, he⟩
      simp at he
    · rcases repoPolicyStep_shape h with ⟨_, _, _, _, h5⟩
      rcases h5 with ⟨_, he⟩ | ⟨_, he⟩ <;> simp at he
    · have he := execStep_shape h
      simp at he
  · intro hnp hcr hreg hrepo hw hcfg
    have h1 : (authStep c o).2 = .ok () := by
      simp [authStep, authGuard, hnp, setupECRAuth, hreg, hw]
    have hc1 : (createStep c o).1 =
        [if isRegistryPublic c.registry then Effect.createRepoPublic c.repo
          else Effect.createRepoPrivate c.repo] := by
      simp [createStep, hnp, hcr, createRepository, hreg, hrepo, hcfg]
    obtain ⟨rest, hr⟩ := step_fst_prefixed (createStep c o)
      (step (lifecycleStep c fs o) (step (repoPolicyStep c fs o) (execStep c o)))
    have hrun : (run c fs o).1 = (authStep c o).1 ++ ((createStep c o).1 ++ rest) := by
      unfold run
      rw [step_ok _ _ h1, hr]
    by_cases hp : isRegistryPublic c.registry
    · refine Or.inl ⟨hp, ?_⟩
      rw [hrun, hc1, if_pos hp]
      simp
    · refine Or.inr ⟨by simpa using hp, ?_⟩
      rw [hrun, hc1, if_neg hp]
      simp

theorem run_create_repo_guarded_witness :
    (isRegistryPublic cfg0.registry = true
      ∧ Effect.createRepoPublic "app"
          ∈ (run { cfg0 with createRepository := true } (fun _ => none) oracles0).1)
    ∨ (isRegistryPublic cfg0.registry = false
      ∧ Effect.createRepoPrivate "app"
          ∈ (run { cfg0 with createRepository := true } (fun _ => none) oracles0).1) :=
  (run_create_repo_guarded { cfg0 with createRepository := true }
    (fun _ => none) oracles0).2.2 rfl rfl (by decide) (by decide) rfl rfl

/-- Claim C8: every policy upload call in the trace of a run carries the policy
policy file contents verbatim: if the lifecycle-policy flag names a file whose
contents are `T`, any lifecycle upload in the trace is for the configured
repo with text exactly `T`, and likewise for the repository policy on
either API surface. -/
theorem run_policy_text_verbatim (c : Config) (fs : String → Option String)
    (o : Oracles) :
    (∀ path T, c.lifecyclePolicy = some path → fs path = some T →
      ∀ r t, Effect.putLifecyclePolicyPrivate r t ∈ (run c fs o).1 →
        r = c.repo ∧ t = T)
    ∧ (∀ path T, c.repositoryPolicy = some path → fs path = some T →
      (∀ r t, Effect.setRepoPolicyPublic r t ∈ (run c fs o).1 → r = c.repo ∧ t = T)
      ∧ (∀ r t, Effect.setRepoPolicyPrivate r t ∈ (run c fs o).1 → r = c.repo ∧ t = T)) := by
  constructor
  · intro path T hpath hT r t hmem
    rcases mem_run hmem with h | h | h | h | h
    · rcases authStep_shape h with ⟨_, _, h3⟩
      rcases h3 with he | he | he <;> simp at he
    · rcases createStep_shape h with ⟨_, _, _, _, h5⟩
      rcases h5 with ⟨_, he⟩ | ⟨_, he⟩ <;> simp at he
    · rcases lifecycleStep_shape h with ⟨path2, T2, hpath2, hT2, he⟩
      rw [hpath] at hpath2
      have hpp : path2 = path := (Option.some.injEq _ _ ▸ hpath2).symm
      rw [hpp, hT] at hT2
      have hTT : T2 = T := (Option.some.injEq _ _ ▸ hT2).symm
      simp only [Effect.putLifecyclePolicyPrivate.injEq] at he
      exact ⟨he.1, he.2.trans hTT⟩
    · rcases repoPolicyStep_shape h with ⟨_, _, _, _, h5⟩
      rcases h5 with ⟨_, he⟩ | ⟨_, he⟩ <;> simp at he
    · have he := execStep_shape h
      simp at he
  · intro path T hpath hT
    constructor
    · intro r t hmem
      rcases mem_run hmem with h | h | h | h | h
      · rcases authStep_shape h with ⟨_, _, h3⟩
        rcases h3 with he | he | he <;> simp at he
      · rcases createStep_shape h with ⟨_, _, _, _, h5⟩
        rcases h5 with ⟨_, he⟩ | ⟨_, he⟩ <;> simp at he
      · rcases lifecycleStep_shape h with ⟨_, _, _, _, he⟩
        simp at he
      · rcases repoPolicyStep_shape h with ⟨path2, T2, hpath2, hT2, h5⟩
        rw [hpath] at hpath2
        have hpp : path2 = path := (Option.some.injEq _ _ ▸ hpath2).symm
        rw [hpp, hT] at hT2
        have hTT : T2 = T := (Option.some.injEq _ _ ▸ hT2).symm
        rcases h5 with ⟨_, he⟩ | ⟨_, he⟩
        · simp only [Effect.setRepoPolicyPublic.injEq] at he
          exact ⟨he.1, he.2.trans hTT⟩
        · simp at he
      · have he := execStep_shape h
        simp at he
    · intro r t hmem
      rcases mem_run hmem with h | h | h | h | h
      · rcases authStep_shape h with ⟨_, _, h3⟩
        rcases h3 with he | he | he <;> simp at he
      · rcases createStep_shape h with ⟨_, _, _, _, h5⟩
        rcases h5 with ⟨_, he⟩ | ⟨_, he⟩ <;> simp at he
      · rcases lifecycleStep_shape h with ⟨_, _, _, _, he⟩
        simp at he
      · rcases repoPolicyStep_shape h with ⟨path2, T2, hpath2, hT2, h5⟩
        rw [hpath] at hpath2
        have hpp : path2 = path := (Option.some.injEq _ _ ▸ hpath2).symm
        rw [hpp, hT] at hT2
        have hTT : T2 = T := (Option.some.injEq _ _ ▸ hT2).symm
        rcases h5 with ⟨_, he⟩ | ⟨_, he⟩
        · simp at he
        · simp only [Effect.setRepoPolicyPrivate.injEq] at he
          exact ⟨he.1, he.2.trans hTT⟩
      · have he := execStep_shape h
        simp at he

theorem run_policy_text_verbatim_witness :
    ("app" : String) = "app" ∧ ("POLICY-TEXT" : String) = "POLICY-TEXT" :=
  (run_policy_text_verbatim cfgPol sampleFS oracles0).1
    "/policy.json" "POLICY-TEXT" rfl (by decide) "app" "POLICY-TEXT" (by decide)

/-- Claim C9: the fully-qualified image repository of the build invocation is
the registry host joined to the repository name by "/", the
fully-qualified cache repository is the registry host joined to the
cache-repo name the same way, the cache repository is computed
identically when caching is disabled, and any plugin execution in the
trace is invoked with exactly this assembled structure. -/
theorem mkPlugin_qualified_repos (c : Config) (fs : String → Option String)
    (o : Oracles) :
    (mkPlugin c).build.Repo = c.registry ++ "/" ++ c.repo
    ∧ (mkPlugin c).build.CacheRepo = c.registry ++ "/" ++ c.cacheRepo
    ∧ (mkPlugin { c with enableCache := false }).build.CacheRepo
        = c.registry ++ "/" ++ c.cacheRepo
    ∧ ∀ p, Effect.execPlugin p ∈ (run c fs o).1 → p = mkPlugin c := by
  refine ⟨rfl, rfl, rfl, ?_⟩
  intro p hmem
  rcases mem_run hmem with h | h | h | h | h
  · rcases authStep_shape h with ⟨_, _, h3⟩
    rcases h3 with he | he | he <;> simp at he
  · rcases createStep_shape h with ⟨_, _, _, _, h5⟩
    rcases h5 with ⟨_, he⟩ | ⟨_, he⟩ <;> simp at he
  · rcases lifecycleStep_shape h with ⟨_, _, _, _, he⟩
    simp at he
  · rcases repoPolicyStep_shape h with ⟨_, _, _, _, h5⟩
    rcases h5 with ⟨_, he⟩ | ⟨_, he⟩ <;> simp at he
  · have he := execStep_shape h
    simpa using he

theorem mkPlugin_qualified_repos_witness :
    (mkPlugin cfg0).build.Repo = "123.dkr.ecr.us-east-1.amazonaws.com/app"
    ∧ (mkPlugin cfg0).build.CacheRepo = "123.dkr.ecr.us-east-1.amazonaws.com/cache"
    ∧ mkPlugin cfg0 = mkPlugin cfg0 :=
  ⟨(mkPlugin_qualified_repos cfg0 (fun _ => none) oracles0).1,
    (mkPlugin_qualified_repos cfg0 (fun _ => none) oracles0).2.1,
    (mkPlugin_qualified_repos cfg0 (fun _ => none) oracles0).2.2.2
      (mkPlugin cfg0) (by decide)⟩

end KanikoECR
